import Mathlib

/-!
Verification of the Magic-AI repository (Python).

Shallow embedding of the repository's own logic:
  * `src/mcp_client.py`   — `MCPClientManager`: transport dispatch, connection
    lifecycle, tool wrappers;
  * `src/first_agent/agent.py` — agent module load, API-key check, optional
    MCP initialisation, tool wrappers;
  * `src/first_agent/__init__.py` — package import of names from the agent module;
  * `src/main.py`         — the custom FastAPI endpoint handlers.

External effects (filesystem existence, network transports, the remote MCP
session, the ADK session/memory services) are parameterised as explicit
outcome arguments of type `Except String _`, where `.error msg` models a
raised Python exception carrying message `msg`.
-/

namespace MagicAI

/-- Decidable equality on `Except`, used to evaluate the embedding on
concrete inputs. -/
instance {ε α : Type _} [DecidableEq ε] [DecidableEq α] :
    DecidableEq (Except ε α) := fun x y =>
  match x, y with
  | .ok a, .ok b =>
    if h : a = b then .isTrue (by rw [h])
    else .isFalse (by intro hc; injection hc; contradiction)
  | .error e, .error f =>
    if h : e = f then .isTrue (by rw [h])
    else .isFalse (by intro hc; injection hc; contradiction)
  | .ok _, .error _ => .isFalse (by intro hc; cases hc)
  | .error _, .ok _ => .isFalse (by intro hc; cases hc)

/-- A Python string value that may be `None`. `none` models Python `None`. -/
abbrev PyStr := Option String

/-- Python truthiness of an optional string: `None` and `""` are falsy. -/
def pyTruthy : PyStr → Bool
  | none => false
  | some s => !s.isEmpty

/-- Python `x or default` for an optional-string `x` and a string default. -/
def pyOrElse (v : PyStr) (default : String) : String :=
  if pyTruthy v then v.getD default else default

/-- Python `s.startswith(pre)`. -/
def pyStartsWith (s pre : String) : Bool :=
  pre.data.isPrefixOf s.data

/-- Character-level worker for Python `str.replace`: replaces every
non-overlapping occurrence of `pat` left to right. The fuel argument is the
length of the scanned list, consumed one character (at least) per step. -/
def pyReplaceAux (pat rep : List Char) : Nat → List Char → List Char
  | 0, s => s
  | _ + 1, [] => []
  | fuel + 1, c :: rest =>
    if !pat.isEmpty && pat.isPrefixOf (c :: rest) then
      rep ++ pyReplaceAux pat rep fuel ((c :: rest).drop pat.length)
    else
      c :: pyReplaceAux pat rep fuel rest

/-- Python `s.replace(pat, rep)` (replace ALL occurrences). For the empty
pattern it returns `s` unchanged; the repository only ever replaces the
non-empty pattern `"stdio://"`. -/
def pyReplace (s pat rep : String) : String :=
  String.mk (pyReplaceAux pat.data rep.data s.data.length s.data)

/-! ## `src/mcp_client.py` — transport dispatch of `MCPClientManager` -/

/-- The transport actually entered by `MCPClientManager`: the source has
exactly two initialisers, `_initialize_stdio(command_path)` and
`_initialize_sse(url)`. -/
inductive Transport
  | stdio (commandPath : String)
  | sse (url : String)
deriving DecidableEq, Repr

/-- The `transport_type` string the source stores for each transport
(`"Stdio"` in `_initialize_stdio`, `"SSE"` in `_initialize_sse`). -/
def transportTypeLabel : Transport → String
  | .stdio _ => "Stdio"
  | .sse _ => "SSE"

/-- The three transport mechanisms named by the module docstring of
`mcp_client.py` ("SSE (Server-Sent Events)", "Stdio (Local process)",
"HTTP (Streamable HTTP)") and by the spec's glossary. Only the first two
have initialisers in the source. -/
inductive TransportKind
  | stdioK
  | sseK
  | streamableHttpK
deriving DecidableEq, Repr

/-- The kind of transport a `Transport` value belongs to. -/
def kindOf : Transport → TransportKind
  | .stdio _ => .stdioK
  | .sse _ => .sseK

/-- Transport dispatch of `MCPClientManager.initialize` (lines 33–49 of
`src/mcp_client.py`): empty string rejected; `stdio://`-prefixed strings go
to `_initialize_stdio` with ALL occurrences of `stdio://` removed
(`connection_string.replace('stdio://', '')`); `http://`/`https://`-prefixed
strings go to `_initialize_sse`; otherwise an existing filesystem path goes
to `_initialize_stdio` unchanged; anything else raises `ValueError`.
`pathExists` models `os.path.exists`. -/
def determineTransport (conn : String) (pathExists : String → Bool) :
    Except String Transport :=
  if conn = "" then
    .error "Connection string is required"
  else if pyStartsWith conn "stdio://" then
    .ok (.stdio (pyReplace conn "stdio://" ""))
  else if pyStartsWith conn "http://" || pyStartsWith conn "https://" then
    .ok (.sse conn)
  else if pathExists conn then
    .ok (.stdio conn)
  else
    .error ("Unable to determine transport type for: " ++ conn ++
      "\nSupported formats: https://server.com/sse, stdio://path/to/exe, or /path/to/exe")

/-- The transport-kind outcome of dispatch, with the error message erased. -/
def kindResult (conn : String) (pathExists : String → Bool) :
    Except Unit TransportKind :=
  ((determineTransport conn pathExists).map kindOf).mapError fun _ => ()

/-! ## `src/mcp_client.py` — connection run of `MCPClientManager.initialize` -/

/-- Name and description of a tool reported by the remote server's
`list_tools` response. -/
structure ToolInfo where
  name : String
  description : Option String
deriving DecidableEq, Repr

/-- Primitive effectful actions performed by `MCPClientManager` on its
`AsyncExitStack` and session, in the order the source performs them. -/
inductive MAction
  | openTransport (t : Transport)
  | openSession
  | sessionStart
  | listTools
  | callTool (name : String)
  | aclose
deriving DecidableEq, Repr

/-- `MCPClientManager.initialize(connection_string)` (lines 24–66).
Dispatches on the connection string, enters the transport context and the
`ClientSession` context on the exit stack, runs `session.initialize()` and
`session.list_tools()`, and registers one wrapper per reported tool. Every
failure is printed and re-raised (`except Exception as e: ... raise`), so a
failure outcome propagates as `.error`. Returns the result paired with the
trace of actions attempted. -/
def managerRunInit (conn : String) (pathExists : String → Bool)
    (transportOut : Transport → Except String Unit)
    (sessionOut : Except String Unit)
    (sessionStartOut : Except String Unit)
    (listOut : Except String (List ToolInfo)) :
    Except String (List ToolInfo) × List MAction :=
  match determineTransport conn pathExists with
  | .error e => (.error e, [])
  | .ok t =>
    match transportOut t with
    | .error e => (.error e, [.openTransport t])
    | .ok _ =>
      match sessionOut with
      | .error e => (.error e, [.openTransport t, .openSession])
      | .ok _ =>
        match sessionStartOut with
        | .error e => (.error e, [.openTransport t, .openSession, .sessionStart])
        | .ok _ =>
          match listOut with
          | .error e =>
            (.error e, [.openTransport t, .openSession, .sessionStart, .listTools])
          | .ok tools =>
            (.ok tools, [.openTransport t, .openSession, .sessionStart, .listTools])

/-- `MCPClientManager.cleanup()` (lines 163–167): a single
`await self.exit_stack.aclose()`. -/
def managerCleanupTrace : List MAction := [.aclose]

/-- `MCPClientManager.get_tools()` (lines 169–171): returns the stored list,
no effect on any connection. -/
def managerGetToolsTrace : List MAction := []

/-- `MCPClientManager.get_tool_info()` (lines 173–182): pure field
renaming over the stored list, no effect on any connection. -/
def managerGetToolInfoTrace : List MAction := []

/-- Effect trace of one invocation of a wrapper from
`_create_tool_wrapper`: a single `session.call_tool`, touching no
transport. -/
def mcpToolWrapTrace (toolName : String) : List MAction := [.callTool toolName]

/-- Number of transport connections opened in a trace. -/
def openCount (tr : List MAction) : Nat :=
  (tr.filter fun a => match a with | .openTransport _ => true | _ => false).length

/-- Number of `AsyncExitStack.aclose` calls in a trace. -/
def acloseCount (tr : List MAction) : Nat :=
  (tr.filter fun a => match a with | .aclose => true | _ => false).length

/-! ## Tool wrappers (`_create_tool_wrapper` and `create_mcp_tool_wrapper`) -/

/-- A Python value appearing in the wrappers' result dictionaries: a string
or a list of strings. -/
inductive PyVal
  | s (v : String)
  | strList (items : List String)
deriving DecidableEq, Repr

/-- One item of a `result.content` list: either an object with a `text`
attribute or some other object (rendered by `str(item)`). -/
inductive ContentItem
  | textItem (t : String)
  | other (repr : String)
deriving DecidableEq, Repr

/-- The shape of a successful `session.call_tool` result, as inspected by
`_create_tool_wrapper`: `result.content` may be a list, a non-list value,
or absent (then `str(result)` is used). -/
inductive CallResult
  | contentList (items : List ContentItem)
  | contentScalar (v : String)
  | noContent (repr : String)
deriving DecidableEq, Repr

/-- The `content` computed by `_create_tool_wrapper` (lines 110–121):
list items are mapped to `item.text` or `str(item)`; a non-list content is
used as is; a result without `content` is rendered with `str`. -/
def contentOf : CallResult → PyVal
  | .contentList items =>
    .strList (items.map fun i => match i with | .textItem t => t | .other r => r)
  | .contentScalar v => .s v
  | .noContent r => .s r

/-- The inner `mcp_tool(**kwargs)` coroutine produced by
`MCPClientManager._create_tool_wrapper` (lines 100–133). `callTool` maps the
keyword arguments to the outcome of `session.call_tool`; `.error` (any
raised exception, including an `AttributeError` from a missing session) is
caught and converted into the error dictionary. -/
def mcpToolWrap (toolName : String)
    (callTool : List (String × PyVal) → Except String CallResult)
    (kwargs : List (String × PyVal)) : List (String × PyVal) :=
  match callTool kwargs with
  | .ok r =>
    [("status", .s "success"), ("tool", .s toolName), ("result", contentOf r)]
  | .error e =>
    [("status", .s "error"), ("tool", .s toolName), ("error", .s e)]

/-- The inner `mcp_tool_wrapper(**kwargs)` coroutine produced by
`create_mcp_tool_wrapper` in `src/first_agent/agent.py` (lines 76–98).
`callTool` maps the keyword arguments to `result.content` of a successful
`mcp_session.call_tool`; any raised exception is `.error` and is converted
into the error dictionary. -/
def agentToolWrap (toolName : String)
    (callTool : List (String × PyVal) → Except String PyVal)
    (kwargs : List (String × PyVal)) : List (String × PyVal) :=
  match callTool kwargs with
  | .ok content =>
    [("status", .s "success"), ("tool", .s toolName), ("result", content)]
  | .error e =>
    [("status", .s "error"), ("tool", .s toolName), ("error", .s e)]

/-! ## `src/first_agent/agent.py` — module load, API-key check, optional MCP -/

/-- A raised Python exception, distinguished by class where the claims
distinguish them. -/
inductive PyErr
  | valueError (msg : String)
  | importError (name : String)
deriving DecidableEq, Repr

/-- A tool in the agent's tool list: the local `get_current_time` function
or one MCP tool wrapper. -/
inductive AgentTool
  | getCurrentTime
  | mcpWrapped (name : String)
deriving DecidableEq, Repr

/-- The message of the `ValueError` raised when `GOOGLE_API_KEY` is unset
or empty (lines 22–26 of `src/first_agent/agent.py`). -/
def apiKeyErrMsg : String :=
  "GOOGLE_API_KEY environment variable not set. " ++
  "Please set it with: export GOOGLE_API_KEY=\x27your-api-key-here\x27"

/-- `initialize_mcp_client()` (lines 37–73): when
`RAG_MCP_CONNECTION_STRING` is falsy (unset or empty) it returns `[]`
without touching the network; otherwise it connects over SSE, lists tools
and wraps them (`connect` is the combined outcome of those awaits), and any
raised exception is caught and `[]` is returned
(`except Exception as e: ... return []`). -/
def agentMcpInit (rag : Option String)
    (connect : Except String (List ToolInfo)) : List AgentTool :=
  match rag with
  | none => []
  | some s =>
    if s = "" then []
    else
      match connect with
      | .ok infos => infos.map fun i => .mcpWrapped i.name
      | .error _ => []

/-- The state of the loaded `first_agent.agent` module. -/
structure AgentModule where
  api_key : String
  mcp_tools : List AgentTool
  all_tools : List AgentTool
  rootAgentTools : List AgentTool
deriving DecidableEq, Repr

/-- Top-level execution of `src/first_agent/agent.py` on import:
read `GOOGLE_API_KEY` (after `load_dotenv`; `env` is the resulting
environment) and raise `ValueError` when it is unset or empty — before any
agent object is constructed; otherwise run the MCP initialisation (whose
failures are swallowed to `[]` both inside `initialize_mcp_client` and by
the module-level `try`/`except`), build `all_tools = [get_current_time] +
mcp_tools` and construct `root_agent` with `tools=all_tools`. -/
def agentModuleLoad (env : String → Option String)
    (connect : Except String (List ToolInfo)) : Except PyErr AgentModule :=
  match env "GOOGLE_API_KEY" with
  | none => .error (.valueError apiKeyErrMsg)
  | some k =>
    if k = "" then .error (.valueError apiKeyErrMsg)
    else
      let mcpTools := agentMcpInit (env "RAG_MCP_CONNECTION_STRING") connect
      let allTools := .getCurrentTime :: mcpTools
      .ok { api_key := k, mcp_tools := mcpTools, all_tools := allTools,
            rootAgentTools := allTools }

/-! ## `src/first_agent/__init__.py` — package import -/

/-- The top-level names defined by `src/first_agent/agent.py`: its imports
and its module-level bindings, in source order. -/
def agentModuleNames : List String :=
  ["os", "asyncio", "load_dotenv", "Agent", "Client", "ClientSession",
   "StdioServerParameters", "stdio_client", "sse_client", "AsyncExitStack",
   "get_current_time", "api_key", "RAG_MCP_CONNECTION_STRING", "mcp_session",
   "mcp_tools", "exit_stack", "initialize_mcp_client",
   "create_mcp_tool_wrapper", "cleanup_mcp_client", "loop", "e", "all_tools",
   "root_agent"]

/-- The names `src/first_agent/__init__.py` imports from `.agent`, in
source order. -/
def packageImportedNames : List String :=
  ["root_agent", "runner", "session_service", "memory_service", "APP_NAME",
   "USER_ID", "auto_save_session_to_memory_callback"]

/-- The first requested name the agent module does not define, if any. -/
def firstMissingName : Option String :=
  packageImportedNames.find? fun n => !agentModuleNames.contains n

/-- `import first_agent`: runs `src/first_agent/__init__.py`, which first
loads the `.agent` submodule (propagating any exception raised by its
top-level code unchanged) and then binds the requested names, raising
`ImportError` at the first name the submodule does not define. -/
def packageImport (env : String → Option String)
    (connect : Except String (List ToolInfo)) : Except PyErr AgentModule :=
  match agentModuleLoad env connect with
  | .error e => .error e
  | .ok m =>
    match firstMissingName with
    | some n => .error (.importError n)
    | none => .ok m

/-! ## `src/main.py` — custom FastAPI endpoint handlers -/

/-- One part of a message content; `text` may be Python `None`. -/
structure Part where
  text : Option String
deriving DecidableEq, Repr

/-- A message content object (truthy whenever present). -/
structure Content where
  parts : List Part
deriving DecidableEq, Repr

/-- One event yielded by `runner.run_async`. -/
structure Event where
  finalResponse : Bool
  content : Option Content
deriving DecidableEq, Repr

/-- The `ChatRequest` model (lines 68–71 of `src/main.py`): `message`,
optional `session_id`, optional `user_id` defaulting to `USER_ID`. -/
structure ChatRequest where
  message : String
  session_id : Option String
  user_id : Option String
deriving DecidableEq, Repr

/-- The `ChatResponse` model. -/
structure ChatPayload where
  response : String
  session_id : String
deriving DecidableEq, Repr

/-- The `SessionInfo` model. -/
structure SessionInfoPayload where
  session_id : String
  app_name : String
  user_id : String
  events_count : Nat
deriving DecidableEq, Repr

/-- The session object read by the handlers, with the attributes
`src/main.py` accesses on it. -/
structure SessionRecord where
  session_id : String
  app_name : String
  user_id : String
  events : List Unit
deriving DecidableEq, Repr

/-- A memory search hit: an optional content with parts. -/
structure MemoryResult where
  content : Option Content
deriving DecidableEq, Repr

/-- The value an endpoint handler produces for FastAPI: a payload, or an
`HTTPException` with a status code and a `detail` string. -/
inductive HttpResult (α : Type)
  | ok (payload : α)
  | httpError (statusCode : Nat) (detail : String)
deriving DecidableEq, Repr

/-- Wraps a handler body in its `try`/`except Exception as e` clause: a
raised exception becomes `HTTPException(status_code=code, detail=pre +
str(e))`. The result lives in `Except String _` so that an uncaught
propagation (never produced) would be visible as an outer `.error`. -/
def handleWith {α : Type} (code : Nat) (pre : String)
    (body : Except String α) : Except String (HttpResult α) :=
  match body with
  | .ok p => .ok (.ok p)
  | .error e => .ok (.httpError code (pre ++ e))

/-- `health_check` (lines 84–86): `GET /health` returns
`{"status": "healthy"}`, reading nothing. -/
def health_check : List (String × String) := [("status", "healthy")]

/-- Body of the `POST /chat` handler (lines 98–147). `genHex` models
`uuid.uuid4().hex[:8]`; `getSession`, `createSession` and `runOutcome`
model the awaited service calls. The inner bare `except` retries with
`create_session`; the final text is the last final-response event's first
part's text, defaulting when falsy. -/
def chatBody (req : ChatRequest) (genHex : String)
    (getSession : Except String SessionRecord)
    (createSession : Except String Unit)
    (runOutcome : Except String (List Event)) : Except String ChatPayload :=
  let sessionId := pyOrElse req.session_id ("session_" ++ genHex)
  let ensured : Except String Unit :=
    match getSession with
    | .ok _ => .ok ()
    | .error _ => createSession
  match ensured with
  | .error e => .error e
  | .ok _ =>
    match runOutcome with
    | .error e => .error e
    | .ok events =>
      let finalText : Option String := events.foldl
        (fun acc ev =>
          match ev.content with
          | some c =>
            if ev.finalResponse && !c.parts.isEmpty then
              (c.parts.headD { text := none }).text
            else acc
          | none => acc)
        (some "")
      .ok { response := pyOrElse finalText "I\x27m sorry, I couldn\x27t generate a response.",
            session_id := sessionId }

/-- The `POST /chat` handler: body wrapped in
`except Exception as e: raise HTTPException(500, "Error processing chat: " + str(e))`. -/
def chatHandler (req : ChatRequest) (genHex : String)
    (getSession : Except String SessionRecord)
    (createSession : Except String Unit)
    (runOutcome : Except String (List Event)) :
    Except String (HttpResult ChatPayload) :=
  handleWith 500 "Error processing chat: "
    (chatBody req genHex getSession createSession runOutcome)

/-- Body of `POST /sessions/{session_id}/save-to-memory` (lines 152–174):
get the session, add it to long-term memory, return the success payload. -/
def saveToMemoryBody (sessionId : String)
    (getSession : Except String SessionRecord)
    (addToMemory : SessionRecord → Except String Unit) :
    Except String (List (String × String)) :=
  match getSession with
  | .error e => .error e
  | .ok s =>
    match addToMemory s with
    | .error e => .error e
    | .ok _ =>
      .ok [("status", "success"),
           ("message", "Session " ++ sessionId ++ " saved to long-term memory")]

/-- The `POST /sessions/{session_id}/save-to-memory` handler: body wrapped
in `except`, raising `HTTPException(500, "Error saving to memory: " + str(e))`. -/
def saveToMemoryHandler (sessionId : String)
    (getSession : Except String SessionRecord)
    (addToMemory : SessionRecord → Except String Unit) :
    Except String (HttpResult (List (String × String))) :=
  handleWith 500 "Error saving to memory: "
    (saveToMemoryBody sessionId getSession addToMemory)

/-- Body of `GET /sessions/{session_id}` (lines 176–193): get the session
and rename its fields into a `SessionInfo`. -/
def sessionInfoBody (getSession : Except String SessionRecord) :
    Except String SessionInfoPayload :=
  match getSession with
  | .error e => .error e
  | .ok s =>
    .ok { session_id := s.session_id, app_name := s.app_name,
          user_id := s.user_id, events_count := s.events.length }

/-- The `GET /sessions/{session_id}` handler: body wrapped in `except`,
raising `HTTPException(404, "Session not found: " + str(e))`. -/
def sessionInfoHandler (getSession : Except String SessionRecord) :
    Except String (HttpResult SessionInfoPayload) :=
  handleWith 404 "Session not found: " (sessionInfoBody getSession)

/-- Body of `POST /memory/search` (lines 195–221): search long-term memory
and collect `part.text` over every truthy content's parts (the `text`
attribute is always present on a `Part`, possibly `None`). -/
def searchMemoryBody (query : String)
    (searchOutcome : Except String (List MemoryResult)) :
    Except String (String × List (Option String)) :=
  match searchOutcome with
  | .error e => .error e
  | .ok results =>
    let memories := results.foldl
      (fun acc r =>
        match r.content with
        | some c => if !c.parts.isEmpty then acc ++ c.parts.map Part.text else acc
        | none => acc)
      []
    .ok (query, memories)

/-- The `POST /memory/search` handler: body wrapped in `except`, raising
`HTTPException(500, "Error searching memory: " + str(e))`. -/
def searchMemoryHandler (query : String)
    (searchOutcome : Except String (List MemoryResult)) :
    Except String (HttpResult (String × List (Option String))) :=
  handleWith 500 "Error searching memory: " (searchMemoryBody query searchOutcome)

/-! ## Claim-side (spec-modelled) dispatch definitions for claim C1 -/

/-- Modelled from claim C1 as stated: a connection string that starts with
`stdio://` or is an existing path selects the process (stdio) transport; one
that starts with `http://`/`https://` selects the streaming-HTTP transport;
anything else is rejected. -/
def claimDispatchC1 (conn : String) (pathExists : String → Bool) :
    Except Unit TransportKind :=
  if pyStartsWith conn "stdio://" || pathExists conn then .ok .stdioK
  else if pyStartsWith conn "http://" || pyStartsWith conn "https://" then
    .ok .streamableHttpK
  else .error ()

/-- Modelled from the amended claim C1: empty string rejected; a `stdio://`
prefix selects the stdio transport; otherwise an `http://`/`https://` prefix
selects the SSE transport; otherwise an existing path selects the stdio
transport; anything else is rejected. -/
def amendedDispatchC1 (conn : String) (pathExists : String → Bool) :
    Except Unit TransportKind :=
  if conn = "" then .error ()
  else if pyStartsWith conn "stdio://" then .ok .stdioK
  else if pyStartsWith conn "http://" || pyStartsWith conn "https://" then
    .ok .sseK
  else if pathExists conn then .ok .stdioK
  else .error ()

/-! ## Theorems for claim C1 -/

/-- C1 (counterexample): at `"http://example.com/sse"` (with no path
existing) the code selects the SSE transport — `_initialize_sse`, which sets
`transport_type = "SSE"` — not the streaming-HTTP transport the claim names;
and at `"http://e"` when the path exists, the code still selects SSE while
the claim's first clause ("is an existing filesystem path") would select
stdio. -/
theorem c1_counterexample :
    kindResult "http://example.com/sse" (fun _ => false) = .ok .sseK ∧
    claimDispatchC1 "http://example.com/sse" (fun _ => false) = .ok .streamableHttpK ∧
    kindResult "http://example.com/sse" (fun _ => false) ≠
      claimDispatchC1 "http://example.com/sse" (fun _ => false) ∧
    (determineTransport "http://example.com/sse" (fun _ => false)).map transportTypeLabel =
      .ok "SSE" ∧
    kindResult "http://e" (fun _ => true) = .ok .sseK ∧
    claimDispatchC1 "http://e" (fun _ => true) = .ok .stdioK := by
  decide

/-- C1 (amended): the dispatch of `MCPClientManager.initialize` agrees
everywhere with the amended three-way dispatch — empty string rejected
(`ValueError`), `stdio://` prefix to stdio, then `http://`/`https://`
prefix to SSE, then an existing path to stdio, anything else rejected
(`ValueError`) — and whenever the dispatch rejects, the run performs no
action at all: no transport is opened. -/
theorem c1_dispatch_characterization :
    ∀ (conn : String) (pe : String → Bool)
      (tOut : Transport → Except String Unit) (sOut ssOut : Except String Unit)
      (lOut : Except String (List ToolInfo)),
      kindResult conn pe = amendedDispatchC1 conn pe ∧
      (amendedDispatchC1 conn pe = .error () →
        (managerRunInit conn pe tOut sOut ssOut lOut).snd = []) := by
  intro conn pe tOut sOut ssOut lOut
  have hk : kindResult conn pe = amendedDispatchC1 conn pe := by
    unfold kindResult determineTransport amendedDispatchC1
    by_cases h1 : conn = ""
    · simp [h1, Except.map, Except.mapError]
    · by_cases h2 : pyStartsWith conn "stdio://" = true
      · simp [h1, h2, Except.map, Except.mapError, kindOf]
      · by_cases h3 : (pyStartsWith conn "http://" || pyStartsWith conn "https://") = true
        · simp [h1, h2, h3, Except.map, Except.mapError, kindOf]
        · by_cases h4 : pe conn = true
          · simp [h1, h2, h3, h4, Except.map, Except.mapError, kindOf]
          · simp [h1, h2, h3, h4, Except.map, Except.mapError]
  refine ⟨hk, fun he => ?_⟩
  have hke : kindResult conn pe = .error () := hk.trans he
  cases hd : determineTransport conn pe with
  | error e => simp [managerRunInit, hd]
  | ok t =>
    exfalso
    rw [kindResult, hd] at hke
    simp [Except.map, Except.mapError] at hke

/-- C1 (witness): at the rejected connection string `"bogus"` the amended
dispatch errors and the run opens nothing. -/
theorem c1_dispatch_characterization_witness :
    amendedDispatchC1 "bogus" (fun _ => false) = .error () ∧
    (managerRunInit "bogus" (fun _ => false) (fun _ => .ok ()) (.ok ())
      (.ok ()) (.ok [])).snd = [] :=
  ⟨by decide,
   (c1_dispatch_characterization "bogus" (fun _ => false) (fun _ => .ok ())
      (.ok ()) (.ok ()) (.ok [])).2 (by decide)⟩

/-! ## Theorems for claim C9 -/

/-- C9: for every `stdio://`-prefixed connection string, the command path
handed to `_initialize_stdio` is the string with EVERY occurrence of
`stdio://` removed (Python `str.replace` replaces all occurrences); on
`"stdio:///usr/stdio://bin/tool"` the inner occurrence is deleted too,
yielding `"/usr/bin/tool"`, which differs from the merely-prefix-stripped
`"/usr/stdio://bin/tool"`. -/
theorem c9_stdio_replace_all :
    ∀ (conn : String) (pe : String → Bool),
      (pyStartsWith conn "stdio://" = true →
        determineTransport conn pe = .ok (.stdio (pyReplace conn "stdio://" ""))) ∧
      determineTransport "stdio:///usr/stdio://bin/tool" pe =
        .ok (.stdio "/usr/bin/tool") ∧
      pyReplace "stdio:///usr/stdio://bin/tool" "stdio://" "" = "/usr/bin/tool" ∧
      String.drop "stdio:///usr/stdio://bin/tool" 8 = "/usr/stdio://bin/tool" ∧
      ("/usr/bin/tool" : String) ≠ "/usr/stdio://bin/tool" := by
  intro conn pe
  refine ⟨fun h => ?_, by rfl, by decide, by decide, by decide⟩
  have hne : ¬ conn = "" := by
    intro hc
    subst hc
    exact absurd h (by decide)
  simp [determineTransport, hne, h]

/-- C9 (witness): the general clause applied at
`"stdio:///usr/stdio://bin/tool"`. -/
theorem c9_stdio_replace_all_witness :
    determineTransport "stdio:///usr/stdio://bin/tool" (fun _ => false) =
      .ok (.stdio (pyReplace "stdio:///usr/stdio://bin/tool" "stdio://" "")) :=
  (c9_stdio_replace_all "stdio:///usr/stdio://bin/tool" (fun _ => false)).1
    (by decide)

/-! ## Theorems for claim C2 -/

/-- C2: every tool wrapper produced by `_create_tool_wrapper` or
`create_mcp_tool_wrapper`, on every keyword-argument input, returns (never
raises — both wrappers are total) a dictionary whose `status` key is
`success` or `error`: `success` with the tool name and result content when
the remote call succeeds, `error` with the tool name and the exception
message when any exception is raised. -/
theorem c2_wrapper_status :
    ∀ (name : String) (callA : List (String × PyVal) → Except String CallResult)
      (callB : List (String × PyVal) → Except String PyVal)
      (kwargs : List (String × PyVal)),
      ((mcpToolWrap name callA kwargs).lookup "status" = some (.s "success") ∨
        (mcpToolWrap name callA kwargs).lookup "status" = some (.s "error")) ∧
      ((agentToolWrap name callB kwargs).lookup "status" = some (.s "success") ∨
        (agentToolWrap name callB kwargs).lookup "status" = some (.s "error")) ∧
      (∀ r, callA kwargs = .ok r →
        mcpToolWrap name callA kwargs =
          [("status", .s "success"), ("tool", .s name), ("result", contentOf r)]) ∧
      (∀ e, callA kwargs = .error e →
        mcpToolWrap name callA kwargs =
          [("status", .s "error"), ("tool", .s name), ("error", .s e)]) ∧
      (∀ v, callB kwargs = .ok v →
        agentToolWrap name callB kwargs =
          [("status", .s "success"), ("tool", .s name), ("result", v)]) ∧
      (∀ e, callB kwargs = .error e →
        agentToolWrap name callB kwargs =
          [("status", .s "error"), ("tool", .s name), ("error", .s e)]) := by
  intro name callA callB kwargs
  refine ⟨?_, ?_, ?_, ?_, ?_, ?_⟩
  · cases h : callA kwargs with
    | ok r => left; simp [mcpToolWrap, h, List.lookup]
    | error e => right; simp [mcpToolWrap, h, List.lookup]
  · cases h : callB kwargs with
    | ok v => left; simp [agentToolWrap, h, List.lookup]
    | error e => right; simp [agentToolWrap, h, List.lookup]
  · intro r h; simp [mcpToolWrap, h]
  · intro e h; simp [mcpToolWrap, h]
  · intro v h; simp [agentToolWrap, h]
  · intro e h; simp [agentToolWrap, h]

/-- C2 (witness): both wrappers at concrete inputs — a successful
`call_tool` with a content list, and a failing one. -/
theorem c2_wrapper_status_witness :
    mcpToolWrap "search" (fun _ => .ok (.contentList [.textItem "hit", .other "obj"])) [] =
      [("status", .s "success"), ("tool", .s "search"),
       ("result", .strList ["hit", "obj"])] ∧
    agentToolWrap "search" (fun _ => .error "boom") [("q", .s "x")] =
      [("status", .s "error"), ("tool", .s "search"), ("error", .s "boom")] :=
  ⟨(c2_wrapper_status "search"
      (fun _ => .ok (.contentList [.textItem "hit", .other "obj"]))
      (fun _ => .error "boom") []).2.2.1 _ rfl,
   (c2_wrapper_status "search"
      (fun _ => .ok (.contentList [.textItem "hit", .other "obj"]))
      (fun _ => .error "boom") [("q", .s "x")]).2.2.2.2.2 _ rfl⟩

/-! ## Claim-side (spec-modelled) definition and theorems for claim C3 -/

/-- Modelled from claim C3: a connection-establishment failure is "caught
and converted into a payload ... returned to the caller, rather than being
propagated as an exception" — i.e. the initialise run returns normally. -/
def c3ClaimCaught (result : Except String (List ToolInfo)) : Prop :=
  ∃ v, result = .ok v

/-- C3 (counterexample): when entering the SSE transport for
`"http://h"` raises `"boom"`, `MCPClientManager.initialize` re-raises it
(`except Exception as e: ... raise`): the run result IS the exception, not
a returned `{"status": "error"}` payload; and `initialize_mcp_client` in
the agent module swallows the same failure into the empty list `[]` — some
other value, not an error-status payload either. -/
theorem c3_counterexample :
    (managerRunInit "http://h" (fun _ => false) (fun _ => .error "boom")
        (.ok ()) (.ok ()) (.ok [])).fst = .error "boom" ∧
    ¬ c3ClaimCaught (managerRunInit "http://h" (fun _ => false)
        (fun _ => .error "boom") (.ok ()) (.ok ()) (.ok [])).fst ∧
    agentMcpInit (some "http://h") (.error "boom") = [] := by
  refine ⟨by rfl, ?_, by rfl⟩
  intro hc
  rcases hc with ⟨v, hv⟩
  rw [show (managerRunInit "http://h" (fun _ => false) (fun _ => .error "boom")
      (.ok ()) (.ok ()) (.ok [])).fst = Except.error "boom" from rfl] at hv
  cases hv

/-- C3 (amended): failures raised during remote-tool connection
establishment (transport setup, session initialisation, tool listing) are
re-raised by `MCPClientManager.initialize` and propagate to the caller as
exceptions; `initialize_mcp_client` in the agent module catches them and
returns the empty tool list (not a status payload); only tool-execution
failures inside the wrappers are converted into `{"status": "error"}`
payloads. -/
theorem c3_conn_failure_handling :
    ∀ (conn : String) (pe : String → Bool) (t : Transport) (e : String)
      (lOut : Except String (List ToolInfo))
      (connect : Except String (List ToolInfo)) (rag name : String)
      (kwargs : List (String × PyVal)),
      (determineTransport conn pe = .ok t →
        (managerRunInit conn pe (fun _ => .error e) (.ok ()) (.ok ()) lOut).fst =
          .error e) ∧
      (determineTransport conn pe = .ok t →
        (managerRunInit conn pe (fun _ => .ok ()) (.ok ()) (.error e) lOut).fst =
          .error e) ∧
      (determineTransport conn pe = .ok t →
        (managerRunInit conn pe (fun _ => .ok ()) (.ok ()) (.ok ()) (.error e)).fst =
          .error e) ∧
      (connect = .error e → rag ≠ "" →
        agentMcpInit (some rag) connect = []) ∧
      (mcpToolWrap name (fun _ => .error e) kwargs).lookup "status" =
        some (.s "error") := by
  intro conn pe t e lOut connect rag name kwargs
  refine ⟨fun hd => ?_, fun hd => ?_, fun hd => ?_, fun hc hr => ?_, ?_⟩
  · simp [managerRunInit, hd]
  · simp [managerRunInit, hd]
  · simp [managerRunInit, hd]
  · simp [agentMcpInit, hc, hr]
  · simp [mcpToolWrap, List.lookup]

/-- C3 (witness): the amended behaviour at the concrete connection string
`"http://h"` with a transport-setup failure `"boom"`. -/
theorem c3_conn_failure_handling_witness :
    (managerRunInit "http://h" (fun _ => false) (fun _ => .error "boom")
        (.ok ()) (.ok ()) (.ok [])).fst = .error "boom" ∧
    agentMcpInit (some "http://h") (.error "boom") = [] :=
  ⟨(c3_conn_failure_handling "http://h" (fun _ => false) (.sse "http://h")
      "boom" (.ok []) (.error "boom") "http://h" "t" []).1 (by rfl),
   ((c3_conn_failure_handling "http://h" (fun _ => false) (.sse "http://h")
      "boom" (.ok []) (.error "boom") "http://h" "t" []).2.2.2.1 rfl
      (by decide))⟩

/-! ## Theorem for claim C4 -/

/-- C4: the `GET /health` handler returns exactly `{"status": "healthy"}`;
its body reads no server state (in the source it is a closure over nothing
— a literal return), so the result is independent of any server state. -/
theorem c4_health_endpoint : health_check = [("status", "healthy")] := rfl

/-! ## Theorems for claim C5 -/

/-- C5: every custom endpoint handler wraps its body in
`try`/`except Exception`: the handler never lets an exception escape (its
outer `Except` is always `.ok`), and a body failure with message `e`
becomes an `HTTPException` whose detail is the endpoint's message followed
by `e` (so the detail contains the exception's message), with status code
500 — except the session-lookup endpoint, which uses 404. -/
theorem c5_handler_error_conversion :
    ∀ (req : ChatRequest) (genHex : String)
      (gs : Except String SessionRecord) (cs : Except String Unit)
      (run : Except String (List Event)) (sid q e : String)
      (add : SessionRecord → Except String Unit)
      (srch : Except String (List MemoryResult)),
      (∃ r, chatHandler req genHex gs cs run = .ok r) ∧
      (chatBody req genHex gs cs run = .error e →
        chatHandler req genHex gs cs run =
          .ok (.httpError 500 ("Error processing chat: " ++ e))) ∧
      (∃ r, saveToMemoryHandler sid gs add = .ok r) ∧
      (saveToMemoryBody sid gs add = .error e →
        saveToMemoryHandler sid gs add =
          .ok (.httpError 500 ("Error saving to memory: " ++ e))) ∧
      (∃ r, sessionInfoHandler gs = .ok r) ∧
      (sessionInfoBody gs = .error e →
        sessionInfoHandler gs =
          .ok (.httpError 404 ("Session not found: " ++ e))) ∧
      (∃ r, searchMemoryHandler q srch = .ok r) ∧
      (searchMemoryBody q srch = .error e →
        searchMemoryHandler q srch =
          .ok (.httpError 500 ("Error searching memory: " ++ e))) := by
  intro req genHex gs cs run sid q e add srch
  refine ⟨?_, fun h => ?_, ?_, fun h => ?_, ?_, fun h => ?_, ?_, fun h => ?_⟩
  · cases hb : chatBody req genHex gs cs run with
    | ok p => exact ⟨.ok p, by simp [chatHandler, handleWith, hb]⟩
    | error m =>
      exact ⟨.httpError 500 ("Error processing chat: " ++ m),
        by simp [chatHandler, handleWith, hb]⟩
  · simp [chatHandler, handleWith, h]
  · cases hb : saveToMemoryBody sid gs add with
    | ok p => exact ⟨.ok p, by simp [saveToMemoryHandler, handleWith, hb]⟩
    | error m =>
      exact ⟨.httpError 500 ("Error saving to memory: " ++ m),
        by simp [saveToMemoryHandler, handleWith, hb]⟩
  · simp [saveToMemoryHandler, handleWith, h]
  · cases hb : sessionInfoBody gs with
    | ok p => exact ⟨.ok p, by simp [sessionInfoHandler, handleWith, hb]⟩
    | error m =>
      exact ⟨.httpError 404 ("Session not found: " ++ m),
        by simp [sessionInfoHandler, handleWith, hb]⟩
  · simp [sessionInfoHandler, handleWith, h]
  · cases hb : searchMemoryBody q srch with
    | ok p => exact ⟨.ok p, by simp [searchMemoryHandler, handleWith, hb]⟩
    | error m =>
      exact ⟨.httpError 500 ("Error searching memory: " ++ m),
        by simp [searchMemoryHandler, handleWith, hb]⟩
  · simp [searchMemoryHandler, handleWith, h]

/-- C5 (witness): all four handlers at a concrete run where every awaited
service call fails with `"boom"`. -/
theorem c5_handler_error_conversion_witness :
    chatHandler ⟨"hi", none, some "u"⟩ "abcd1234" (.error "boom") (.error "boom")
        (.ok []) = .ok (.httpError 500 "Error processing chat: boom") ∧
    saveToMemoryHandler "s1" (.error "boom") (fun _ => .ok ()) =
      .ok (.httpError 500 "Error saving to memory: boom") ∧
    sessionInfoHandler (.error "boom") =
      .ok (.httpError 404 "Session not found: boom") ∧
    searchMemoryHandler "q" (.error "boom") =
      .ok (.httpError 500 "Error searching memory: boom") :=
  ⟨(c5_handler_error_conversion ⟨"hi", none, some "u"⟩ "abcd1234"
      (.error "boom") (.error "boom") (.ok []) "s1" "q" "boom"
      (fun _ => .ok ()) (.error "boom")).2.1 (by rfl),
   (c5_handler_error_conversion ⟨"hi", none, some "u"⟩ "abcd1234"
      (.error "boom") (.error "boom") (.ok []) "s1" "q" "boom"
      (fun _ => .ok ()) (.error "boom")).2.2.2.1 (by rfl),
   (c5_handler_error_conversion ⟨"hi", none, some "u"⟩ "abcd1234"
      (.error "boom") (.error "boom") (.ok []) "s1" "q" "boom"
      (fun _ => .ok ()) (.error "boom")).2.2.2.2.2.1 (by rfl),
   (c5_handler_error_conversion ⟨"hi", none, some "u"⟩ "abcd1234"
      (.error "boom") (.error "boom") (.ok []) "s1" "q" "boom"
      (fun _ => .ok ()) (.error "boom")).2.2.2.2.2.2.2 (by rfl)⟩

/-! ## Theorems for claim C6 -/

/-- C6: when `GOOGLE_API_KEY` is unset or empty in the environment seen at
module load, loading `first_agent.agent` raises `ValueError` — the load
result is the error and carries no module state, so no agent object is
constructed; when it is set to a non-empty value the check passes and the
module loads. -/
theorem c6_api_key_required :
    ∀ (env : String → Option String) (connect : Except String (List ToolInfo)),
      ((env "GOOGLE_API_KEY" = none ∨ env "GOOGLE_API_KEY" = some "") →
        agentModuleLoad env connect = .error (.valueError apiKeyErrMsg)) ∧
      (∀ k, env "GOOGLE_API_KEY" = some k → k ≠ "" →
        ∃ m, agentModuleLoad env connect = .ok m ∧ m.api_key = k) := by
  intro env connect
  constructor
  · rintro (h | h) <;> simp [agentModuleLoad, h]
  · intro k hk hne
    have hload : agentModuleLoad env connect =
        .ok { api_key := k,
              mcp_tools := agentMcpInit (env "RAG_MCP_CONNECTION_STRING") connect,
              all_tools := .getCurrentTime ::
                agentMcpInit (env "RAG_MCP_CONNECTION_STRING") connect,
              rootAgentTools := .getCurrentTime ::
                agentMcpInit (env "RAG_MCP_CONNECTION_STRING") connect } := by
      simp [agentModuleLoad, hk, hne]
    exact ⟨_, hload, rfl⟩

/-- C6 (witness): the check fails on an empty environment and on an empty
key, and passes on a non-empty key. -/
theorem c6_api_key_required_witness :
    agentModuleLoad (fun _ => none) (.ok []) =
      .error (.valueError apiKeyErrMsg) ∧
    (∃ m, agentModuleLoad (fun v => if v = "GOOGLE_API_KEY" then some "k1" else none)
        (.ok []) = .ok m ∧ m.api_key = "k1") :=
  ⟨(c6_api_key_required (fun _ => none) (.ok [])).1 (Or.inl rfl),
   (c6_api_key_required (fun v => if v = "GOOGLE_API_KEY" then some "k1" else none)
      (.ok [])).2 "k1" (by decide) (by decide)⟩

/-! ## Theorems for claim C7 -/

/-- C7: a successful `initialize` run opens exactly one transport
connection; no run ever opens more than one (there is no pooling, retry or
reconnection); `cleanup` is a single `AsyncExitStack.aclose`; and the other
manager operations (`get_tools`, `get_tool_info`, a tool-wrapper call)
open no connection. -/
theorem c7_single_connection :
    ∀ (conn : String) (pe : String → Bool)
      (tOut : Transport → Except String Unit) (sOut ssOut : Except String Unit)
      (lOut : Except String (List ToolInfo)) (name : String),
      openCount (managerRunInit conn pe tOut sOut ssOut lOut).snd ≤ 1 ∧
      (∀ tools, (managerRunInit conn pe tOut sOut ssOut lOut).fst = .ok tools →
        openCount (managerRunInit conn pe tOut sOut ssOut lOut).snd = 1) ∧
      managerCleanupTrace = [.aclose] ∧
      acloseCount managerCleanupTrace = 1 ∧
      openCount managerCleanupTrace = 0 ∧
      openCount managerGetToolsTrace = 0 ∧
      openCount managerGetToolInfoTrace = 0 ∧
      openCount (mcpToolWrapTrace name) = 0 := by
  intro conn pe tOut sOut ssOut lOut name
  have hcase :
      openCount (managerRunInit conn pe tOut sOut ssOut lOut).snd ≤ 1 ∧
      (∀ tools, (managerRunInit conn pe tOut sOut ssOut lOut).fst = .ok tools →
        openCount (managerRunInit conn pe tOut sOut ssOut lOut).snd = 1) := by
    cases hd : determineTransport conn pe with
    | error d =>
      constructor
      · simp [managerRunInit, hd, openCount]
      · intro tools htools
        simp [managerRunInit, hd] at htools
    | ok t =>
      cases ht : tOut t with
      | error te =>
        constructor
        · simp [managerRunInit, hd, ht, openCount, List.filter]
        · intro tools htools
          simp [managerRunInit, hd, ht] at htools
      | ok tu =>
        cases hs : sOut with
        | error se =>
          constructor
          · simp [managerRunInit, hd, ht, hs, openCount, List.filter]
          · intro tools htools
            simp [managerRunInit, hd, ht, hs] at htools
        | ok su =>
          cases hss : ssOut with
          | error sse =>
            constructor
            · simp [managerRunInit, hd, ht, hs, hss, openCount, List.filter]
            · intro tools htools
              simp [managerRunInit, hd, ht, hs, hss] at htools
          | ok ssu =>
            cases hl : lOut with
            | error le =>
              constructor
              · simp [managerRunInit, hd, ht, hs, hss, hl, openCount, List.filter]
              · intro tools htools
                simp [managerRunInit, hd, ht, hs, hss, hl] at htools
            | ok tools =>
              constructor
              · simp [managerRunInit, hd, ht, hs, hss, hl, openCount, List.filter]
              · intro tools2 htools
                simp [managerRunInit, hd, ht, hs, hss, hl, openCount, List.filter]
  exact ⟨hcase.1, hcase.2, rfl, rfl, rfl, rfl, rfl, rfl⟩

/-- C7 (witness): a concrete successful run over
`"stdio://srv"` opens exactly one transport connection. -/
theorem c7_single_connection_witness :
    openCount (managerRunInit "stdio://srv" (fun _ => false) (fun _ => .ok ())
      (.ok ()) (.ok ()) (.ok [⟨"t1", none⟩])).snd = 1 :=
  (c7_single_connection "stdio://srv" (fun _ => false) (fun _ => .ok ())
    (.ok ()) (.ok ()) (.ok [⟨"t1", none⟩]) "t1").2.1 [⟨"t1", none⟩] (by rfl)

/-! ## Theorems for claim C8 -/

/-- C8: when `RAG_MCP_CONNECTION_STRING` is unset, MCP initialisation is
skipped without error — `initialize_mcp_client` returns `[]` — and the
agent module still loads, constructing `root_agent` with exactly the local
`get_current_time` tool. -/
theorem c8_optional_rag :
    ∀ (env : String → Option String) (connect : Except String (List ToolInfo))
      (k : String),
      env "GOOGLE_API_KEY" = some k → k ≠ "" →
      env "RAG_MCP_CONNECTION_STRING" = none →
      agentMcpInit (env "RAG_MCP_CONNECTION_STRING") connect = [] ∧
      agentModuleLoad env connect =
        .ok { api_key := k, mcp_tools := [], all_tools := [.getCurrentTime],
              rootAgentTools := [.getCurrentTime] } := by
  intro env connect k hk hne hr
  constructor
  · simp [agentMcpInit, hr]
  · simp [agentModuleLoad, agentMcpInit, hk, hne, hr]

/-- C8 (witness): a concrete environment with only the API key set. -/
theorem c8_optional_rag_witness :
    agentModuleLoad (fun v => if v = "GOOGLE_API_KEY" then some "k1" else none)
        (.error "unreachable") =
      .ok { api_key := "k1", mcp_tools := [], all_tools := [.getCurrentTime],
            rootAgentTools := [.getCurrentTime] } :=
  (c8_optional_rag (fun v => if v = "GOOGLE_API_KEY" then some "k1" else none)
    (.error "unreachable") "k1" (by decide) (by decide) (by decide)).2

/-! ## Theorems for claim C10 -/

/-- C10 (counterexample): with `GOOGLE_API_KEY` unset, importing the
`first_agent` package fails with the `ValueError` raised by the agent
module's top-level key check — not with an `ImportError`, contrary to the
claim's "always fails with an ImportError". -/
theorem c10_counterexample :
    packageImport (fun _ => none) (.ok []) =
      .error (.valueError apiKeyErrMsg) ∧
    (match packageImport (fun _ => none) (.ok []) with
      | .error (.importError _) => False
      | _ => True) := by
  constructor
  · rfl
  · rw [show packageImport (fun _ => none) (.ok []) =
        .error (.valueError apiKeyErrMsg) from rfl]
    trivial

/-- C10 (amended): importing the `first_agent` package never succeeds: when
the agent module itself fails to load (e.g. missing `GOOGLE_API_KEY`) that
exception propagates; whenever the agent module loads, the package
initializer's from-import fails with `ImportError` on `runner`, because the
agent module defines `root_agent` but none of `runner`, `session_service`,
`memory_service`, `APP_NAME`, `USER_ID`,
`auto_save_session_to_memory_callback`; so no public interface of the
package is reachable via a package import. -/
theorem c10_package_import_always_fails :
    ∀ (env : String → Option String) (connect : Except String (List ToolInfo))
      (k : String),
      (∀ m, packageImport env connect ≠ .ok m) ∧
      (env "GOOGLE_API_KEY" = some k → k ≠ "" →
        packageImport env connect = .error (.importError "runner")) ∧
      agentModuleNames.contains "root_agent" = true ∧
      (["runner", "session_service", "memory_service", "APP_NAME", "USER_ID",
        "auto_save_session_to_memory_callback"].all
          fun n => !agentModuleNames.contains n) = true := by
  intro env connect k
  refine ⟨?_, fun hk hne => ?_, by decide, by decide⟩
  · intro m hm
    unfold packageImport at hm
    cases hd : agentModuleLoad env connect with
    | error e => rw [hd] at hm; cases hm
    | ok st =>
      rw [hd] at hm
      rw [show firstMissingName = some "runner" from by decide] at hm
      cases hm
  · cases hd : agentModuleLoad env connect with
    | error e => exfalso; simp [agentModuleLoad, hk, hne] at hd
    | ok m =>
      simp [packageImport, hd, show firstMissingName = some "runner" from by decide]

/-- C10 (witness): with the API key set, the package import fails with
`ImportError` on `runner`. -/
theorem c10_package_import_always_fails_witness :
    packageImport (fun v => if v = "GOOGLE_API_KEY" then some "k1" else none)
        (.ok []) = .error (.importError "runner") :=
  (c10_package_import_always_fails
    (fun v => if v = "GOOGLE_API_KEY" then some "k1" else none)
    (.ok []) "k1").2.1 (by decide) (by decide)

end MagicAI
